import Mathlib

/-!
Shallow embedding of `src/app.py`, a Streamlit face-enrollment wizard.

The app consists of three pure helpers (`validate_single_face`,
`overlay_face_outline`, `build_zip`) and a linear page state machine kept in
`st.session_state` (`page`, `step`, `images`, `name`, `emp_id`).  External
libraries (OpenCV, PIL, json) are modelled as parameters or, where the app's
behaviour depends on their exact values, as faithful arithmetic models (the
double-precision computation of the ellipse semi-axes).
-/

/-- A decoded colour image.  `allocId` models Python object identity (each
allocation gets a fresh tag); `w`/`h` are the pixel dimensions and `pix`
the RGB pixel grid. -/
structure Image where
  allocId : Nat
  w : Nat
  h : Nat
  pix : Nat → Nat → Nat × Nat × Nat

/-- A single-channel intensity image, the result of
`cv2.cvtColor(..., cv2.COLOR_RGB2GRAY)`.  Its contents are opaque to the
app, which only passes it on to the cascade detector. -/
structure Gray where
  pix : Nat → Nat → Nat

/-- A detected face region `(x, y, w, h)` as returned by
`detectMultiScale`. -/
abbrev Rect := Nat × Nat × Nat × Nat

/-- The fixed pose sequence `POSES` from the source: `(key, instruction)`
pairs, in order. -/
def POSES : List (String × String) :=
  [("front", "Look straight at the camera"),
   ("left", "Turn your head slightly LEFT"),
   ("right", "Turn your head slightly RIGHT"),
   ("up", "Tilt your head UP"),
   ("down", "Tilt your head DOWN")]

/-- The pose keys, in the static order of `POSES`. -/
def poseKeys : List String := POSES.map Prod.fst

/-- The scale-factor argument `1.2` passed to `detectMultiScale`
(modelled as the exact rational the source literal denotes). -/
def scaleFactorArg : ℚ := 1.2

/-- The minimum-neighbour argument `5` passed to `detectMultiScale`. -/
def minNeighborsArg : Nat := 5

/-- `validate_single_face(image_pil)` from the source.  `cvt` models
`cv2.cvtColor(np.array(image_pil), cv2.COLOR_RGB2GRAY)` and `det` models
`FACE_CASCADE.detectMultiScale(gray, 1.2, 5)`; both are external OpenCV
calls that can raise (`Except.error`), and the source installs no handler,
so errors propagate to the caller.  On success the function returns
`len(faces) == 1`. -/
def validate_single_face (cvt : Image → Except String Gray)
    (det : Gray → ℚ → Nat → Except String (List Rect))
    (image_pil : Image) : Except String Bool :=
  match cvt image_pil with
  | Except.error e => Except.error e
  | Except.ok gray =>
    match det gray scaleFactorArg minNeighborsArg with
    | Except.error e => Except.error e
    | Except.ok faces => Except.ok (faces.length == 1)

/-- The arguments of one `cv2.ellipse` call. -/
structure EllipseCall where
  center : Nat × Nat
  axes : Nat × Nat
  angle : Nat
  startAngle : Nat
  endAngle : Nat
  color : Nat × Nat × Nat
  thickness : Nat
deriving DecidableEq

/-- Floor of the base-2 logarithm, by fuel recursion (fuel 128 covers every
number below `2^128`, far beyond any value arising here). -/
def log2Fuel : Nat → Nat → Nat
  | 0, _ => 0
  | f + 1, n => if n ≤ 1 then 0 else log2Fuel f (n / 2) + 1

/-- Round `n / 2^k` to the nearest integer, ties to even — the IEEE-754
default rounding used by CPython's float multiplication. -/
def roundHalfEven (n k : Nat) : Nat :=
  let q := n / 2 ^ k
  let r := n % 2 ^ k
  if 2 * r > 2 ^ k ∨ (2 * r = 2 ^ k ∧ q % 2 = 1) then q + 1 else q

/-- The integer significand of the IEEE-754 double nearest to `0.35`:
`0.35` is not a dyadic rational, and the nearest double is
`6305039478318694 / 2^54`, strictly below `7/20`. -/
def significand035 : Nat := 6305039478318694

/-- `int(h * 0.35)` as CPython computes it for `h < 2^53` (every realistic
image height): the exact product `h * significand035 / 2^54` is rounded to
53 significant bits (round-to-nearest, ties-to-even) and then truncated.
For most `h` this equals `35 * h / 100` rounded down, but not always:
`180 * 0.35` rounds to a double strictly below `63`, so the result is `62`. -/
def semiAxisY (h : Nat) : Nat :=
  let n := h * significand035
  let l := log2Fuel 128 n
  if l ≤ 52 then n / 2 ^ 54
  else
    let k := l - 52
    roundHalfEven n k * 2 ^ k / 2 ^ 54

/-- `int(w * 0.25)` as CPython computes it for `w < 2^53`: `0.25` is a
power of two, so the double product is exact and truncation gives exactly
`w / 4` rounded down. -/
def semiAxisX (w : Nat) : Nat := w / 4

/-- The arguments of the single `cv2.ellipse` call in
`overlay_face_outline`, as a function of the array shape `(h, w, _)`:
center `(w // 2, h // 2)`, axes `(int(w * 0.25), int(h * 0.35))`, angle 0,
arc from 0 to 360 degrees, colour `(0, 255, 0)` (green in the BGR array),
thickness 2. -/
def ellipseCallOf (w h : Nat) : EllipseCall :=
  { center := (w / 2, h / 2)
    axes := (semiAxisX w, semiAxisY h)
    angle := 0
    startAngle := 0
    endAngle := 360
    color := (0, 255, 0)
    thickness := 2 }

/-- `cv2.cvtColor(..., cv2.COLOR_RGB2BGR)`: channel swap on the pixel
grid. -/
def rgbToBgr (p : Nat → Nat → Nat × Nat × Nat) : Nat → Nat → Nat × Nat × Nat :=
  fun x y => ((p x y).2.2, (p x y).2.1, (p x y).1)

/-- `cv2.cvtColor(..., cv2.COLOR_BGR2RGB)`: the inverse channel swap. -/
def bgrToRgb (p : Nat → Nat → Nat × Nat × Nat) : Nat → Nat → Nat × Nat × Nat :=
  fun x y => ((p x y).2.2, (p x y).2.1, (p x y).1)

/-- `overlay_face_outline(image_pil)` from the source, with the heap made
explicit.  `np.array(image_pil)` copies the PIL buffer, so the in-place
`cv2.ellipse` mutation (modelled by the rasteriser `raster`, whose pixel
behaviour the app does not depend on) touches only the copy;
`Image.fromarray` then allocates a fresh PIL image.  The result pairs the
caller's image as it stands after the call with the returned image, so the
absence of mutation of the input is part of the function's meaning. -/
def overlay_face_outline
    (raster : EllipseCall → (Nat → Nat → Nat × Nat × Nat) → (Nat → Nat → Nat × Nat × Nat))
    (image_pil : Image) : Image × Image :=
  let arr := rgbToBgr image_pil.pix
  let arr2 := raster (ellipseCallOf image_pil.w image_pil.h) arr
  (image_pil,
   { allocId := image_pil.allocId + 1
     w := image_pil.w
     h := image_pil.h
     pix := bgrToRgb arr2 })

/-- The metadata record built on the final page: exactly five fields. -/
structure Metadata where
  employee_id : String
  name : String
  poses : List String
  timestamp : String
  source : String
deriving DecidableEq

/-- `zipf.writestr` encodes a Python `str` payload to bytes; modelled as
the sequence of character codes. -/
def strBytes (s : String) : List Nat := s.data.map Char.toNat

/-- `build_zip(images, metadata)` from the source.  The ZIP archive is
modelled as its ordered list of `(entry name, payload)` pairs.  `jpeg`
models `img.save(img_bytes, format JPEG)` and `jdump` models
`json.dumps(metadata, indent=2)`; the loop iterates the mapping in
insertion order and the metadata entry is written last. -/
def build_zip (jpeg : Image → List Nat) (jdump : Metadata → String)
    (images : List (String × Image)) (metadata : Metadata) :
    List (String × List Nat) :=
  images.map (fun kv => (kv.1 ++ ".jpg", jpeg kv.2))
    ++ [("metadata.json", strBytes (jdump metadata))]

/-- `st.session_state.page`: the three pages of the wizard. -/
inductive Page where
  | intro
  | capture
  | final
deriving DecidableEq

/-- The session state kept in `st.session_state`: the page, the step
counter, the accepted images (a Python dict, i.e. an insertion-ordered
association list keyed by pose name), and the identity fields, which are
absent until the intro form is submitted successfully. -/
structure SessionState where
  page : Page
  step : Nat
  images : List (String × Image)
  name : Option String
  emp_id : Option String

/-- The state installed by the three initialisation guards at the top of
the script: page `intro`, step `0`, empty image dict, no identity. -/
def initState : SessionState :=
  { page := Page.intro, step := 0, images := [], name := none, emp_id := none }

/-- The Start Enrollment handler on the intro page.  Python truthiness of
`name and emp_id and consent` demands both strings non-empty and the
consent box ticked; on failure `st.error` is shown and nothing is stored,
on success the identity is stored and the page becomes `capture`. -/
def startEnrollment (s : SessionState) (name emp_id : String) (consent : Bool) :
    SessionState :=
  if name ≠ "" ∧ emp_id ≠ "" ∧ consent = true then
    { s with name := some name, emp_id := some emp_id, page := Page.capture }
  else
    s

/-- Python dict assignment `d[k] = v`: overwrite in place if the key is
present (keeping its position), otherwise append at the end. -/
def dictInsert (l : List (String × Image)) (k : String) (v : Image) :
    List (String × Image) :=
  if k ∈ l.map Prod.fst then
    l.map (fun p => if p.1 = k then (k, v) else p)
  else
    l ++ [(k, v)]

/-- The Accept and Continue handler: store the candidate under the current
pose key, advance the step, and move to the final page exactly when the
new step reaches `len(POSES)`. -/
def acceptImage (s : SessionState) (img : Image) (h : s.step < POSES.length) :
    SessionState :=
  let pose_name := (POSES.get ⟨s.step, h⟩).1
  let images' := dictInsert s.images pose_name img
  let step' := s.step + 1
  { s with
    images := images'
    step := step'
    page := if POSES.length ≤ step' then Page.final else s.page }

/-- Which of the two buttons the user presses after a validated preview
(`retake` also covers pressing nothing: both leave the state as is and
rerun). -/
inductive CaptureAction where
  | retake
  | accept

/-- The result of one run of the capture-page script: either the session
state at the next rerun, or an uncaught Python exception escaping the
script (the source installs no try/except anywhere). -/
inductive Outcome where
  | ok (s : SessionState)
  | crash (msg : String)

/-- One run of the capture page (lines 107-141 of the source) for a given
submitted photo and button choice.  `POSES[step]` is evaluated first and
raises `IndexError` when the step is out of range; a detector error inside
`validate_single_face` propagates uncaught; a failed validation shows
`st.error` and stops with the state unchanged; `retake` reruns with the
state unchanged; `accept` runs the Accept and Continue handler.  The
preview `overlay_face_outline(img)` is computed between validation and the
buttons but never touches the session state, so it is omitted here. -/
def runCapture (cvt : Image → Except String Gray)
    (det : Gray → ℚ → Nat → Except String (List Rect))
    (s : SessionState) (photo : Option Image) (act : CaptureAction) : Outcome :=
  if h : s.step < POSES.length then
    match photo with
    | none => Outcome.ok s
    | some img =>
      match validate_single_face cvt det img with
      | Except.error e => Outcome.crash e
      | Except.ok false => Outcome.ok s
      | Except.ok true =>
        match act with
        | CaptureAction.retake => Outcome.ok s
        | CaptureAction.accept => Outcome.ok (acceptImage s img h)
  else
    Outcome.crash "IndexError"

/-- The metadata record built on the final page (lines 149-155): employee
id and name from the session, `poses` the keys of the image dict in
insertion order, the timestamp string produced by
`datetime.utcnow().isoformat()` (passed in as `now`), and the fixed source
tag. -/
def finalMetadata (s : SessionState) (now : String) : Metadata :=
  { employee_id := s.emp_id.getD ""
    name := s.name.getD ""
    poses := s.images.map Prod.fst
    timestamp := now
    source := "streamlit-frontend-preview" }

/-- One user-visible transition of the wizard: a Start Enrollment click on
the intro page, or a capture-page run that ends without an uncaught
exception.  The final page performs no state transitions. -/
inductive Step (cvt : Image → Except String Gray)
    (det : Gray → ℚ → Nat → Except String (List Rect)) :
    SessionState → SessionState → Prop where
  | start : ∀ (s : SessionState) (n e : String) (c : Bool),
      s.page = Page.intro → Step cvt det s (startEnrollment s n e c)
  | capture : ∀ (s s' : SessionState) (photo : Option Image) (act : CaptureAction),
      s.page = Page.capture → runCapture cvt det s photo act = Outcome.ok s' →
      Step cvt det s s'

/-- The session states reachable from the initial state. -/
inductive Reachable (cvt : Image → Except String Gray)
    (det : Gray → ℚ → Nat → Except String (List Rect)) : SessionState → Prop where
  | init : Reachable cvt det initState
  | step : ∀ (s s' : SessionState),
      Reachable cvt det s → Step cvt det s s' → Reachable cvt det s'

/-- The wizard invariant: the step counter counts the accepted images,
whose keys are the first `step` pose keys in order; the intro page has step
`0`, the capture page keeps the step strictly below the pose count (so the
`POSES[step]` lookup is in bounds), and the final page is reached exactly
at step `len(POSES)`. -/
def WizardInv (s : SessionState) : Prop :=
  s.step = s.images.length ∧
  s.images.map Prod.fst = poseKeys.take s.step ∧
  (s.page = Page.intro → s.step = 0) ∧
  (s.page = Page.capture → s.step < POSES.length) ∧
  (s.page = Page.final → s.step = POSES.length)

/-- A concrete 10 by 10 test image. -/
def img0 : Image := { allocId := 0, w := 10, h := 10, pix := fun _ _ => (0, 0, 0) }

/-- A concrete grayscale image. -/
def gray0 : Gray := { pix := fun _ _ => 0 }

/-- A grayscale conversion that always succeeds. -/
def cvt0 : Image → Except String Gray := fun _ => Except.ok gray0

/-- A grayscale conversion that raises, as `cv2.cvtColor` does on a
degenerate input array. -/
def cvtBad : Image → Except String Gray := fun _ => Except.error "cv2.error: bad input"

/-- A detector that always reports exactly one face region. -/
def det1 : Gray → ℚ → Nat → Except String (List Rect) :=
  fun _ _ _ => Except.ok [(1, 2, 3, 4)]

/-- A detector that always reports two face regions. -/
def det2 : Gray → ℚ → Nat → Except String (List Rect) :=
  fun _ _ _ => Except.ok [(1, 2, 3, 4), (5, 6, 7, 8)]

/-- A detector that always reports zero face regions. -/
def det0 : Gray → ℚ → Nat → Except String (List Rect) :=
  fun _ _ _ => Except.ok []

/-- The fully accepted image dictionary of the demonstration run. -/
def demoImgs : List (String × Image) :=
  [("front", img0), ("left", img0), ("right", img0), ("up", img0), ("down", img0)]

/-- The session state of the demonstration run after the intro form and
`n` accepted captures. -/
def demoState (n : Nat) : SessionState :=
  { page := if POSES.length ≤ n then Page.final else Page.capture
    step := n
    images := demoImgs.take n
    name := some "Al"
    emp_id := some "E1" }

/-- A concrete JPEG encoder stand-in for witnesses. -/
def jpeg0 : Image → List Nat := fun _ => [255, 216]

/-- A concrete JSON serialiser stand-in for witnesses. -/
def jdump0 : Metadata → String := fun m => m.employee_id

/-- Concrete metadata for witnesses. -/
def meta0 : Metadata :=
  { employee_id := "E1", name := "Al", poses := ["front", "left"],
    timestamp := "2024-01-01T00:00:00", source := "x" }

/-- A two-image dictionary for the archive witness. -/
def images2 : List (String × Image) := [("front", img0), ("left", img0)]

theorem poseKeys_nodup : poseKeys.Nodup := by decide

theorem poseKeys_get_not_mem_take :
    ∀ i : Fin poseKeys.length, poseKeys.get i ∉ poseKeys.take i.val := by decide

theorem wizardInv_init : WizardInv initState := by
  unfold WizardInv initState
  refine ⟨rfl, rfl, fun _ => rfl, ?_, ?_⟩ <;> intro h <;> simp at h

theorem startEnrollment_wizardInv (s : SessionState) (n e : String) (c : Bool)
    (hp : s.page = Page.intro) (hi : WizardInv s) :
    WizardInv (startEnrollment s n e c) := by
  obtain ⟨h1, h2, h3, h4, h5⟩ := hi
  unfold startEnrollment
  split
  · refine ⟨h1, h2, ?_, ?_, ?_⟩
    · intro h; simp at h
    · intro _
      have hz : s.step = 0 := h3 hp
      rw [hz]
      decide
    · intro h; simp at h
  · exact ⟨h1, h2, h3, h4, h5⟩

theorem acceptImage_wizardInv (s : SessionState) (img : Image)
    (h : s.step < POSES.length) (hp : s.page = Page.capture) (hi : WizardInv s) :
    WizardInv (acceptImage s img h) := by
  obtain ⟨h1, h2, h3, h4, h5⟩ := hi
  have hlt : s.step < poseKeys.length := by
    simpa [poseKeys] using h
  have hkey : (POSES.get ⟨s.step, h⟩).1 = poseKeys.get ⟨s.step, hlt⟩ := by
    simp [poseKeys]
  have hnotmem : (POSES.get ⟨s.step, h⟩).1 ∉ s.images.map Prod.fst := by
    rw [h2, hkey]
    exact poseKeys_get_not_mem_take ⟨s.step, hlt⟩
  unfold acceptImage dictInsert
  dsimp only
  rw [if_neg hnotmem]
  unfold WizardInv
  dsimp only
  refine ⟨?_, ?_, ?_, ?_, ?_⟩
  · simp [h1]
  · simp only [List.map_append, List.map_cons, List.map_nil, h2, hkey]
    rw [List.take_succ]
    simp [List.getElem?_eq_getElem hlt, List.get_eq_getElem]
  · intro hq
    by_cases hend : POSES.length ≤ s.step + 1
    · rw [if_pos hend] at hq
      exact absurd hq (by decide)
    · rw [if_neg hend, hp] at hq
      exact absurd hq (by decide)
  · intro hq
    by_cases hend : POSES.length ≤ s.step + 1
    · rw [if_pos hend] at hq
      exact absurd hq (by decide)
    · omega
  · intro hq
    by_cases hend : POSES.length ≤ s.step + 1
    · omega
    · rw [if_neg hend, hp] at hq
      exact absurd hq (by decide)

theorem runCapture_wizardInv (cvt : Image → Except String Gray)
    (det : Gray → ℚ → Nat → Except String (List Rect))
    (s s' : SessionState) (photo : Option Image) (act : CaptureAction)
    (hp : s.page = Page.capture) (hi : WizardInv s)
    (hr : runCapture cvt det s photo act = Outcome.ok s') : WizardInv s' := by
  unfold runCapture at hr
  split at hr
  next h =>
    split at hr
    · injection hr with hr
      exact hr ▸ hi
    · rename_i img
      split at hr
      · simp at hr
      · injection hr with hr
        exact hr ▸ hi
      · split at hr
        · injection hr with hr
          exact hr ▸ hi
        · injection hr with hr
          exact hr ▸ acceptImage_wizardInv s img h hp hi
  next h => simp at hr

theorem reachable_wizardInv (cvt : Image → Except String Gray)
    (det : Gray → ℚ → Nat → Except String (List Rect))
    (s : SessionState) (h : Reachable cvt det s) : WizardInv s := by
  induction h with
  | init => exact wizardInv_init
  | step s s' hr hs ih =>
    cases hs
    case start n e c hp => exact startEnrollment_wizardInv s n e c hp ih
    case capture photo act hp hr2 => exact runCapture_wizardInv cvt det s s' photo act hp ih hr2

theorem reach_demo0 : Reachable cvt0 det1 (demoState 0) :=
  Reachable.step _ _ Reachable.init (Step.start initState "Al" "E1" true rfl)

theorem step_demo0 : Step cvt0 det1 (demoState 0) (demoState 1) :=
  Step.capture (demoState 0) (demoState 1) (some img0) CaptureAction.accept rfl rfl

theorem reach_demo1 : Reachable cvt0 det1 (demoState 1) :=
  Reachable.step _ _ reach_demo0 step_demo0

theorem step_demo1 : Step cvt0 det1 (demoState 1) (demoState 2) :=
  Step.capture (demoState 1) (demoState 2) (some img0) CaptureAction.accept rfl rfl

theorem reach_demo2 : Reachable cvt0 det1 (demoState 2) :=
  Reachable.step _ _ reach_demo1 step_demo1

theorem step_demo2 : Step cvt0 det1 (demoState 2) (demoState 3) :=
  Step.capture (demoState 2) (demoState 3) (some img0) CaptureAction.accept rfl rfl

theorem reach_demo3 : Reachable cvt0 det1 (demoState 3) :=
  Reachable.step _ _ reach_demo2 step_demo2

theorem step_demo3 : Step cvt0 det1 (demoState 3) (demoState 4) :=
  Step.capture (demoState 3) (demoState 4) (some img0) CaptureAction.accept rfl rfl

theorem reach_demo4 : Reachable cvt0 det1 (demoState 4) :=
  Reachable.step _ _ reach_demo3 step_demo3

theorem step_demo4 : Step cvt0 det1 (demoState 4) (demoState 5) :=
  Step.capture (demoState 4) (demoState 5) (some img0) CaptureAction.accept rfl rfl

theorem reach_demo5 : Reachable cvt0 det1 (demoState 5) :=
  Reachable.step _ _ reach_demo4 step_demo4

theorem append_jpg_injective : Function.Injective (fun s : String => s ++ ".jpg") := by
  intro a b hab
  have h := congrArg String.data hab
  rw [String.data_append, String.data_append] at h
  exact String.ext (List.append_cancel_right h)

theorem append_jpg_ne_meta (k : String) : k ++ ".jpg" ≠ "metadata.json" := by
  intro h
  have hd := congrArg String.data h
  rw [String.data_append] at hd
  have h4 : (k.data ++ ".jpg".data).reverse.take 4 = ("metadata.json".data).reverse.take 4 := by
    rw [hd]
  rw [List.reverse_append] at h4
  have hlen : (4 : Nat) = (".jpg".data.reverse).length := by decide
  rw [hlen, List.take_left] at h4
  exact absurd h4 (by decide)

/-- C1: in every reachable session state (in particular after every
transition of the wizard: intro submit, retake, failed validation, accept)
the step counter equals the number of accepted images, and the pose keys
stored in the image dictionary are exactly the first `current_step` entries
of the static pose sequence, in order; acceptance stores the image and
advances the counter in the same transition. -/
theorem c1_step_counts_accepted_images (cvt : Image → Except String Gray)
    (det : Gray → ℚ → Nat → Except String (List Rect))
    (s : SessionState) (h : Reachable cvt det s) :
    s.step = s.images.length ∧
    s.images.map Prod.fst = poseKeys.take s.step := by
  have hi := reachable_wizardInv cvt det s h
  exact ⟨hi.1, hi.2.1⟩

theorem c1_step_counts_accepted_images_witness :
    (demoState 2).step = (demoState 2).images.length ∧
    (demoState 2).images.map Prod.fst = poseKeys.take (demoState 2).step :=
  c1_step_counts_accepted_images cvt0 det1 (demoState 2) reach_demo2

/-- C10: in every reachable state showing the capture page the step counter
is strictly below the length of the pose sequence, so the `POSES[step]`
lookup is in bounds; and the accept transition that makes the counter reach
the pose count moves the page to final in the same transition. -/
theorem c10_capture_step_in_bounds (cvt : Image → Except String Gray)
    (det : Gray → ℚ → Nat → Except String (List Rect))
    (s : SessionState) (h : Reachable cvt det s) (hc : s.page = Page.capture) :
    s.step < POSES.length ∧
    ∀ (img : Image) (hs : s.step < POSES.length),
      s.step + 1 = POSES.length → (acceptImage s img hs).page = Page.final := by
  have hi := reachable_wizardInv cvt det s h
  refine ⟨hi.2.2.2.1 hc, ?_⟩
  intro img hs hlast
  unfold acceptImage
  dsimp only
  rw [if_pos (le_of_eq hlast.symm)]

theorem c10_capture_step_in_bounds_witness :
    (demoState 4).step < POSES.length ∧
    ∀ (img : Image) (hs : (demoState 4).step < POSES.length),
      (demoState 4).step + 1 = POSES.length →
      (acceptImage (demoState 4) img hs).page = Page.final :=
  c10_capture_step_in_bounds cvt0 det1 (demoState 4) reach_demo4 rfl

/-- C4: on the capture page, a retake of a validated candidate and a
submission that fails face validation both end the script run with the
whole session state unchanged (same step, same accepted images, same
identity fields); the candidate is discarded, not stored. -/
theorem c4_retake_and_failed_validation_keep_state (cvt : Image → Except String Gray)
    (det : Gray → ℚ → Nat → Except String (List Rect))
    (s : SessionState) (img : Image)
    (hpage : s.page = Page.capture) (hstep : s.step < POSES.length) :
    (validate_single_face cvt det img = Except.ok false →
      ∀ act : CaptureAction, runCapture cvt det s (some img) act = Outcome.ok s) ∧
    (validate_single_face cvt det img = Except.ok true →
      runCapture cvt det s (some img) CaptureAction.retake = Outcome.ok s) := by
  constructor
  · intro hv act
    simp [runCapture, hstep, hv]
  · intro hv
    simp [runCapture, hstep, hv]

theorem c4_retake_and_failed_validation_keep_state_witness :
    runCapture cvt0 det2 (demoState 0) (some img0) CaptureAction.accept
        = Outcome.ok (demoState 0) ∧
    runCapture cvt0 det1 (demoState 0) (some img0) CaptureAction.retake
        = Outcome.ok (demoState 0) :=
  ⟨(c4_retake_and_failed_validation_keep_state cvt0 det2 (demoState 0) img0 rfl
      (by decide)).1 rfl CaptureAction.accept,
   (c4_retake_and_failed_validation_keep_state cvt0 det1 (demoState 0) img0 rfl
      (by decide)).2 rfl⟩

/-- C8: from the intro page, the wizard moves to the capture page exactly
when the name is non-empty, the employee id is non-empty and the consent
box is ticked; when the guard fails the whole session state is unchanged,
and when it holds exactly the two identity fields and the page change. -/
theorem c8_intro_guard (s : SessionState) (n e : String) (c : Bool)
    (hp : s.page = Page.intro) :
    ((startEnrollment s n e c).page = Page.capture ↔ (n ≠ "" ∧ e ≠ "" ∧ c = true)) ∧
    (¬(n ≠ "" ∧ e ≠ "" ∧ c = true) → startEnrollment s n e c = s) ∧
    ((n ≠ "" ∧ e ≠ "" ∧ c = true) →
      startEnrollment s n e c =
        { s with name := some n, emp_id := some e, page := Page.capture }) := by
  by_cases hg : n ≠ "" ∧ e ≠ "" ∧ c = true
  · refine ⟨?_, fun hng => absurd hg hng, fun _ => ?_⟩
    · simp [startEnrollment, hg]
    · simp [startEnrollment, hg]
  · refine ⟨?_, fun _ => ?_, fun hgg => absurd hgg hg⟩
    · simp [startEnrollment, hg, hp]
    · simp [startEnrollment, hg]

theorem c8_intro_guard_witness :
    ((startEnrollment initState "Al" "E1" true).page = Page.capture ↔
      ("Al" ≠ "" ∧ "E1" ≠ "" ∧ true = true)) ∧
    (¬("Al" ≠ "" ∧ "E1" ≠ "" ∧ true = true) →
      startEnrollment initState "Al" "E1" true = initState) ∧
    (("Al" ≠ "" ∧ "E1" ≠ "" ∧ true = true) →
      startEnrollment initState "Al" "E1" true =
        { initState with name := some "Al", emp_id := some "E1", page := Page.capture }) :=
  c8_intro_guard initState "Al" "E1" true rfl

/-- C2: whenever the grayscale conversion and the cascade detector (with
scale factor 1.2 and minimum neighbour count 5) succeed,
`validate_single_face` returns true exactly when the detector reports one
region, and returns false for zero regions or for two or more. -/
theorem c2_validate_single_face_iff_one_region (cvt : Image → Except String Gray)
    (det : Gray → ℚ → Nat → Except String (List Rect))
    (img : Image) (g : Gray) (faces : List Rect)
    (hc : cvt img = Except.ok g)
    (hd : det g scaleFactorArg minNeighborsArg = Except.ok faces) :
    (validate_single_face cvt det img = Except.ok true ↔ faces.length = 1) ∧
    (faces.length ≠ 1 → validate_single_face cvt det img = Except.ok false) := by
  constructor
  · simp [validate_single_face, hc, hd]
  · intro hne
    simp [validate_single_face, hc, hd, hne]

theorem c2_validate_single_face_iff_one_region_witness :
    ((validate_single_face cvt0 det1 img0 = Except.ok true ↔
        ([((1 : Nat), (2 : Nat), (3 : Nat), (4 : Nat))] : List Rect).length = 1) ∧
      (([((1 : Nat), (2 : Nat), (3 : Nat), (4 : Nat))] : List Rect).length ≠ 1 →
        validate_single_face cvt0 det1 img0 = Except.ok false)) ∧
    ((validate_single_face cvt0 det2 img0 = Except.ok true ↔
        ([((1 : Nat), (2 : Nat), (3 : Nat), (4 : Nat)),
          ((5 : Nat), (6 : Nat), (7 : Nat), (8 : Nat))] : List Rect).length = 1) ∧
      (([((1 : Nat), (2 : Nat), (3 : Nat), (4 : Nat)),
          ((5 : Nat), (6 : Nat), (7 : Nat), (8 : Nat))] : List Rect).length ≠ 1 →
        validate_single_face cvt0 det2 img0 = Except.ok false)) :=
  ⟨c2_validate_single_face_iff_one_region cvt0 det1 img0 gray0 _ rfl rfl,
   c2_validate_single_face_iff_one_region cvt0 det2 img0 gray0 _ rfl rfl⟩

/-- C5: the claim says a detector failure is treated as a validation
failure with an inline retry prompt; the code has no try/except, so the
error propagates out of the capture page and aborts the script run.  This
theorem evaluates the capture page at a failing input: a conversion error
produces a crash outcome, not the unchanged-state retry outcome
`Outcome.ok (demoState 0)` the claim describes. -/
theorem c5_detector_error_escapes_uncaught :
    runCapture cvtBad det1 (demoState 0) (some img0) CaptureAction.retake
      = Outcome.crash "cv2.error: bad input" := rfl

/-- C6 counterexample: the claim says the semi-axes are exactly 25 percent
of the width and 35 percent of the height.  At width 100 and height 180
both percentages are whole numbers (25 and 63), but the code computes
`int(180 * 0.35)` in double precision, and `180 * 0.35` rounds to a double
strictly below 63, so the drawn vertical semi-axis is 62, not 63. -/
theorem c6_counterexample_vertical_axis_at_180 :
    (ellipseCallOf 100 180).axes = (25, 62) ∧ 35 * 180 / 100 = 63 ∧
    (ellipseCallOf 100 180).axes.2 ≠ 35 * 180 / 100 := by decide

/-- C6 (amended): `overlay_face_outline` draws a single unfilled ellipse
whose centre is exactly `(w // 2, h // 2)`, whose semi-axes are
`int(w * 0.25)` and `int(h * 0.35)` as computed in double-precision
arithmetic (equal to 25 percent of the width exactly, and to 35 percent of
the height except for heights where the double product rounds below the
exact value, e.g. 62 rather than 63 at height 180), with a full 0 to 360
degree arc and stroke width 2; the call depends only on the image
dimensions, never on a detected face location. -/
theorem c6_overlay_ellipse_arguments
    (raster : EllipseCall → (Nat → Nat → Nat × Nat × Nat) → (Nat → Nat → Nat × Nat × Nat))
    (img : Image) :
    (overlay_face_outline raster img).2.pix
        = bgrToRgb (raster (ellipseCallOf img.w img.h) (rgbToBgr img.pix)) ∧
    (ellipseCallOf img.w img.h).center = (img.w / 2, img.h / 2) ∧
    (ellipseCallOf img.w img.h).axes = (img.w / 4, semiAxisY img.h) ∧
    (ellipseCallOf img.w img.h).startAngle = 0 ∧
    (ellipseCallOf img.w img.h).endAngle = 360 ∧
    (ellipseCallOf img.w img.h).thickness = 2 :=
  ⟨rfl, rfl, rfl, rfl, rfl, rfl⟩

/-- C7: `overlay_face_outline` returns a freshly allocated image (distinct
object identity), of the same width and height as its input, and the input
image is exactly what it was before the call — the in-place ellipse draw
happens on the `np.array` copy, never on the caller's buffer. -/
theorem c7_overlay_preserves_input
    (raster : EllipseCall → (Nat → Nat → Nat × Nat × Nat) → (Nat → Nat → Nat × Nat × Nat))
    (img : Image) :
    (overlay_face_outline raster img).1 = img ∧
    (overlay_face_outline raster img).2.w = img.w ∧
    (overlay_face_outline raster img).2.h = img.h ∧
    (overlay_face_outline raster img).2.allocId ≠ img.allocId :=
  ⟨rfl, rfl, rfl, Nat.succ_ne_self img.allocId⟩

/-- C3: for every image mapping with distinct pose keys (as a Python dict
guarantees) and every metadata record, the archive contains the image
entries in the iteration order of the mapping followed by the metadata
entry; each pose contributes exactly one entry named `<pose>.jpg` holding
its encoding, and there is exactly one `metadata.json` entry, holding the
serialised metadata record. -/
theorem c3_build_zip_entries (jpeg : Image → List Nat) (jdump : Metadata → String)
    (images : List (String × Image)) (metadata : Metadata)
    (hnd : (images.map Prod.fst).Nodup) :
    ((build_zip jpeg jdump images metadata).map Prod.fst
        = images.map (fun kv => kv.1 ++ ".jpg") ++ ["metadata.json"]) ∧
    (∀ kv, kv ∈ images →
        (kv.1 ++ ".jpg", jpeg kv.2) ∈ build_zip jpeg jdump images metadata) ∧
    (∀ k, k ∈ images.map Prod.fst →
        ((build_zip jpeg jdump images metadata).map Prod.fst).count (k ++ ".jpg") = 1) ∧
    ((build_zip jpeg jdump images metadata).map Prod.fst).count "metadata.json" = 1 ∧
    (build_zip jpeg jdump images metadata).getLast?
        = some ("metadata.json", strBytes (jdump metadata)) := by
  have hmap : (build_zip jpeg jdump images metadata).map Prod.fst
      = (images.map Prod.fst).map (fun s => s ++ ".jpg") ++ ["metadata.json"] := by
    simp [build_zip, List.map_map, Function.comp]
  refine ⟨?_, ?_, ?_, ?_, ?_⟩
  · rw [hmap]
    simp [List.map_map, Function.comp]
  · intro kv hkv
    exact List.mem_append_left _ (List.mem_map_of_mem _ hkv)
  · intro k hk
    rw [hmap, List.count_append]
    rw [List.count_map_of_injective _ _ append_jpg_injective]
    rw [List.count_eq_one_of_mem hnd hk]
    simp [append_jpg_ne_meta k]
  · rw [hmap, List.count_append]
    have hz : ((images.map Prod.fst).map (fun s => s ++ ".jpg")).count "metadata.json" = 0 := by
      rw [List.count_eq_zero]
      intro hmem
      obtain ⟨k, _, hkeq⟩ := List.mem_map.mp hmem
      exact append_jpg_ne_meta k hkeq
    rw [hz]
    simp
  · simp [build_zip]

theorem c3_build_zip_entries_witness :
    ((build_zip jpeg0 jdump0 images2 meta0).map Prod.fst
        = images2.map (fun kv => kv.1 ++ ".jpg") ++ ["metadata.json"]) ∧
    (∀ kv, kv ∈ images2 →
        (kv.1 ++ ".jpg", jpeg0 kv.2) ∈ build_zip jpeg0 jdump0 images2 meta0) ∧
    (∀ k, k ∈ images2.map Prod.fst →
        ((build_zip jpeg0 jdump0 images2 meta0).map Prod.fst).count (k ++ ".jpg") = 1) ∧
    ((build_zip jpeg0 jdump0 images2 meta0).map Prod.fst).count "metadata.json" = 1 ∧
    (build_zip jpeg0 jdump0 images2 meta0).getLast?
        = some ("metadata.json", strBytes (jdump0 meta0)) :=
  c3_build_zip_entries jpeg0 jdump0 images2 meta0 (by decide)

/-- C9: the metadata record built at final packaging has exactly the five
fields of `Metadata`; its `poses` field is the list of pose keys of the
accepted images in insertion order — in a reachable final state this is the
whole static pose sequence — its `source` field is the fixed tag, and its
`timestamp` field is the ISO-format UTC time string computed at packaging
time. -/
theorem c9_final_metadata_fields (cvt : Image → Except String Gray)
    (det : Gray → ℚ → Nat → Except String (List Rect))
    (s : SessionState) (now : String)
    (h : Reachable cvt det s) (hf : s.page = Page.final) :
    (finalMetadata s now).employee_id = s.emp_id.getD "" ∧
    (finalMetadata s now).name = s.name.getD "" ∧
    (finalMetadata s now).poses = s.images.map Prod.fst ∧
    (finalMetadata s now).poses = poseKeys ∧
    (finalMetadata s now).timestamp = now ∧
    (finalMetadata s now).source = "streamlit-frontend-preview" := by
  have hi := reachable_wizardInv cvt det s h
  refine ⟨rfl, rfl, rfl, ?_, rfl, rfl⟩
  show s.images.map Prod.fst = poseKeys
  rw [hi.2.1, hi.2.2.2.2 hf]
  have hlen : POSES.length = poseKeys.length := by simp [poseKeys]
  rw [hlen, List.take_length]

theorem c9_final_metadata_fields_witness :
    (finalMetadata (demoState 5) "2024-01-01T00:00:00").employee_id
        = (demoState 5).emp_id.getD "" ∧
    (finalMetadata (demoState 5) "2024-01-01T00:00:00").name
        = (demoState 5).name.getD "" ∧
    (finalMetadata (demoState 5) "2024-01-01T00:00:00").poses
        = (demoState 5).images.map Prod.fst ∧
    (finalMetadata (demoState 5) "2024-01-01T00:00:00").poses = poseKeys ∧
    (finalMetadata (demoState 5) "2024-01-01T00:00:00").timestamp
        = "2024-01-01T00:00:00" ∧
    (finalMetadata (demoState 5) "2024-01-01T00:00:00").source
        = "streamlit-frontend-preview" :=
  c9_final_metadata_fields cvt0 det1 (demoState 5) "2024-01-01T00:00:00" reach_demo5 rfl
